import Mathlib

/-!
A shallow embedding of the resize pipeline of `src/sharp.cc` (a node/vips
image-resize addon) together with proofs about it.

The embedding follows the source file:
* `EndsWith` embeds the C++ suffix test (byte-exact `std::string::compare`
  on the trailing characters).
* The geometry planner of `ResizeAsync` (lines 77-82): `xfactor`, `yfactor`,
  `factor`, `shrink`, `residual`.  The C++ computes these in `double`; here
  they are modelled in exact rational arithmetic, the reading the spec itself
  uses ("real-valued division").
* The crop / embed placement arithmetic (lines 99-119), in `Int` with
  truncating division exactly as C++ `/` behaves on the operands involved.
* The full worker `ResizeAsync` as a function from a baton and an
  environment of external vips outcomes to a result record, with the images
  produced by the external vips primitives kept as symbolic terms (`VImage`)
  so that the sequence of applied transform stages is visible.
* The completion callback `ResizeAsyncAfter` (lines 165-185) and the
  argument-marshalling entry point `Resize` (lines 187-211).
-/

namespace Sharp

/-- `EndsWith` from sharp.cc line 44: `str.length() >= end.length()` and the
last `end.length()` characters of `str` equal `end` (byte-exact, hence
case-sensitive). -/
def EndsWith (str e : String) : Bool :=
  decide (e.data.length ≤ str.data.length) &&
    decide (str.data.drop (str.data.length - e.data.length) = e.data)

/-- `xfactor` from line 77: `double(img->Xsize) / std::max(baton->cols, 1)`. -/
def xfactor (srcW cols : Int) : ℚ :=
  (srcW : ℚ) / ((max cols 1 : Int) : ℚ)

/-- `yfactor` from line 78: `double(img->Ysize) / std::max(baton->rows, 1)`. -/
def yfactor (srcH rows : Int) : ℚ :=
  (srcH : ℚ) / ((max rows 1 : Int) : ℚ)

/-- `factor` from lines 79-80: the policy-selected factor, clamped below at 1. -/
def factor (crop : Bool) (xf yf : ℚ) : ℚ :=
  max (if crop then min xf yf else max xf yf) 1

/-- `shrink` from line 81: `int shrink = floor(factor)`. -/
def shrink (f : ℚ) : Int := ⌊f⌋

/-- `residual` from line 82: `double residual = shrink / factor`. -/
def residual (s : Int) (f : ℚ) : ℚ := (s : ℚ) / f

lemma one_le_factor (crop : Bool) (xf yf : ℚ) : 1 ≤ factor crop xf yf :=
  le_max_right _ _

lemma factor_pos (crop : Bool) (xf yf : ℚ) : 0 < factor crop xf yf :=
  lt_of_lt_of_le one_pos (one_le_factor crop xf yf)

lemma one_le_shrink (crop : Bool) (xf yf : ℚ) :
    1 ≤ shrink (factor crop xf yf) := by
  rw [shrink, Int.le_floor]
  exact_mod_cast one_le_factor crop xf yf

/-- C3: the planner's factor equals min (Crop) / max (Embed) of the two axis
factors clamped below at 1, hence is always ≥ 1, and `shrink = ⌊factor⌋ ≥ 1`,
for every source and target dimensions. -/
theorem factor_shrink_spec (srcW srcH cols rows : Int) (crop : Bool) :
    factor crop (xfactor srcW cols) (yfactor srcH rows) =
      max (if crop then min (xfactor srcW cols) (yfactor srcH rows)
           else max (xfactor srcW cols) (yfactor srcH rows)) 1 ∧
    1 ≤ factor crop (xfactor srcW cols) (yfactor srcH rows) ∧
    1 ≤ shrink (factor crop (xfactor srcW cols) (yfactor srcH rows)) :=
  ⟨rfl, one_le_factor _ _ _, one_le_shrink _ _ _⟩

/-- C4: for all inputs, `residual = shrink / factor` lies in the interval
(0, 1]. -/
theorem residual_mem_Ioc (srcW srcH cols rows : Int) (crop : Bool) :
    0 < residual (shrink (factor crop (xfactor srcW cols) (yfactor srcH rows)))
          (factor crop (xfactor srcW cols) (yfactor srcH rows)) ∧
    residual (shrink (factor crop (xfactor srcW cols) (yfactor srcH rows)))
          (factor crop (xfactor srcW cols) (yfactor srcH rows)) ≤ 1 := by
  set f := factor crop (xfactor srcW cols) (yfactor srcH rows) with hf
  have hfpos : 0 < f := factor_pos _ _ _
  have hs : 1 ≤ shrink f := one_le_shrink _ _ _
  constructor
  · apply div_pos _ hfpos
    exact_mod_cast lt_of_lt_of_le one_pos hs
  · rw [residual, div_le_one hfpos]
    exact Int.floor_le f

/-- The extraction width of the crop branch, line 100:
`int width = std::min(img->Xsize, baton->cols)` (and symmetrically line 101
for the height).  Note the unclamped `baton->cols` is used here. -/
def cropWidth (imgX cols : Int) : Int := min imgX cols

/-- The extraction offset of the crop branch, line 102:
`int left = (img->Xsize - width + 1) / 2` (C++ `/` truncates toward zero). -/
def cropLeft (imgX width : Int) : Int := Int.tdiv (imgX - width + 1) 2

/-- The embed offset of the pad branch, line 111:
`int left = (baton->cols - img->Xsize) / 2`. -/
def embedLeft (cols imgX : Int) : Int := Int.tdiv (cols - imgX) 2

/-- The canvas width handed to `im_embed` on line 113 is the raw
`baton->cols` (and symmetrically the raw `baton->rows` for the height). -/
def embedCanvasW (cols : Int) : Int := cols

lemma crop_side_within (n t : Int) (hn : 1 ≤ n) (ht : 1 ≤ t) :
    0 ≤ cropLeft n (cropWidth n t) ∧
      cropLeft n (cropWidth n t) + cropWidth n t ≤ n := by
  have hw : cropWidth n t ≤ n := min_le_left _ _
  have hw1 : 1 ≤ cropWidth n t := le_min hn ht
  have hnum : (0 : Int) ≤ n - cropWidth n t + 1 := by omega
  rw [cropLeft, Int.tdiv_eq_ediv hnum (by norm_num)]
  omega

/-- C10: the crop extraction rectangle always lies entirely within the
resampled image: offsets are nonnegative and offset + extent never exceeds
the resampled extent, for all resampled and target dimensions ≥ 1. -/
theorem crop_rect_within_image (imgX imgY cols rows : Int)
    (hx : 1 ≤ imgX) (hy : 1 ≤ imgY) (hc : 1 ≤ cols) (hr : 1 ≤ rows) :
    0 ≤ cropLeft imgX (cropWidth imgX cols) ∧
    0 ≤ cropLeft imgY (cropWidth imgY rows) ∧
    cropLeft imgX (cropWidth imgX cols) + cropWidth imgX cols ≤ imgX ∧
    cropLeft imgY (cropWidth imgY rows) + cropWidth imgY rows ≤ imgY := by
  obtain ⟨h1, h2⟩ := crop_side_within imgX cols hx hc
  obtain ⟨h3, h4⟩ := crop_side_within imgY rows hy hr
  exact ⟨h1, h3, h2, h4⟩

/-- Closed-form instance of `crop_rect_within_image`. -/
theorem crop_rect_within_image_witness :
    0 ≤ cropLeft 7 (cropWidth 7 3) ∧
    0 ≤ cropLeft 5 (cropWidth 5 4) ∧
    cropLeft 7 (cropWidth 7 3) + cropWidth 7 3 ≤ 7 ∧
    cropLeft 5 (cropWidth 5 4) + cropWidth 5 4 ≤ 5 :=
  crop_rect_within_image 7 5 3 4 (by decide) (by decide) (by decide) (by decide)

/-- Modelled from the spec: `im_shrink` and `im_affinei` are external vips
primitives, not code of this repository; §4.2 of the spec states that the
two-stage resample (integer shrink then residual affine) reaches the exact
residual scale, so the resampled dimension is modelled as exact scaling of
the source dimension by `1 / factor`
(shrink then residual: `(d / shrink) * (shrink / factor) = d / factor`). -/
def resampledDim (srcDim : Int) (f : ℚ) : ℚ := (srcDim : ℚ) / f

/-- The extraction dimension of the crop branch (line 100) over the exact
resampled dimension: `min(img->Xsize, baton->cols)`. -/
def cropOutDim (imgDim : ℚ) (target : Int) : ℚ := min imgDim (target : ℚ)

lemma cropOut_eq_target (srcD t : Int) (f : ℚ) (ht : 1 ≤ t) (hfpos : 0 < f)
    (hle : f ≤ (srcD : ℚ) / (t : ℚ)) :
    cropOutDim (resampledDim srcD f) t = (t : ℚ) := by
  have htQ : (0 : ℚ) < (t : ℚ) := by exact_mod_cast lt_of_lt_of_le one_pos ht
  apply min_eq_right
  rw [resampledDim, le_div_iff₀ hfpos]
  calc (t : ℚ) * f ≤ (t : ℚ) * ((srcD : ℚ) / (t : ℚ)) :=
        mul_le_mul_of_nonneg_left hle (le_of_lt htQ)
    _ = (srcD : ℚ) := by field_simp

/-- C2: under the Crop policy, with target dimensions ≥ 1 and the source at
least as large as the target in the governing dimension (the axis attaining
the smaller factor, i.e. `min xfactor yfactor ≥ 1`), both output dimensions
of the crop extraction equal the target dimensions exactly. -/
theorem crop_output_dims_exact (srcW srcH cols rows : Int)
    (hc : 1 ≤ cols) (hr : 1 ≤ rows)
    (hgov : 1 ≤ min (xfactor srcW cols) (yfactor srcH rows)) :
    cropOutDim
        (resampledDim srcW
          (factor true (xfactor srcW cols) (yfactor srcH rows))) cols
      = (cols : ℚ) ∧
    cropOutDim
        (resampledDim srcH
          (factor true (xfactor srcW cols) (yfactor srcH rows))) rows
      = (rows : ℚ) := by
  have hfac : factor true (xfactor srcW cols) (yfactor srcH rows)
      = min (xfactor srcW cols) (yfactor srcH rows) := by
    rw [factor]
    exact max_eq_left hgov
  have hfpos : 0 < factor true (xfactor srcW cols) (yfactor srcH rows) :=
    factor_pos _ _ _
  have hxf : xfactor srcW cols = (srcW : ℚ) / (cols : ℚ) := by
    rw [xfactor, max_eq_left hc]
  have hyf : yfactor srcH rows = (srcH : ℚ) / (rows : ℚ) := by
    rw [yfactor, max_eq_left hr]
  constructor
  · apply cropOut_eq_target srcW cols _ hc hfpos
    rw [← hxf, hfac]
    exact min_le_left _ _
  · apply cropOut_eq_target srcH rows _ hr hfpos
    rw [← hyf, hfac]
    exact min_le_right _ _

/-- Closed-form instance of `crop_output_dims_exact`: a 1000×1000 source
cropped to 100×100 yields exactly 100×100. -/
theorem crop_output_dims_exact_witness :
    cropOutDim
        (resampledDim 1000
          (factor true (xfactor 1000 100) (yfactor 1000 100))) 100
      = (100 : ℚ) ∧
    cropOutDim
        (resampledDim 1000
          (factor true (xfactor 1000 100) (yfactor 1000 100))) 100
      = (100 : ℚ) :=
  crop_output_dims_exact 1000 1000 100 100 (by decide) (by decide)
    (by rw [xfactor, yfactor]; norm_num)

/-- C5 counterexample: with target width 0 the crop extraction consumes the
raw value 0, not 1 — the "treated as 1" clamping does not reach the crop
stage (had the 0 been clamped to 1, the extraction width would be 1). -/
theorem clamp_not_pipeline_wide :
    cropWidth 100 0 = 0 ∧ ¬ (0 < cropWidth 100 0) ∧
    cropWidth 100 1 = 1 ∧ embedCanvasW 0 = 0 := by decide

/-- C5 amended: values ≤ 0 are clamped to a minimum of 1 only inside the
factor computation (the divisors of `xfactor`/`yfactor`); the crop
extraction and the embed canvas sizing consume the raw target values, which
stay ≤ 0 there when the request's targets are ≤ 0. -/
theorem clamp_only_in_factor (srcW cols resW : Int)
    (hc : cols ≤ 0) (hres : 1 ≤ resW) :
    xfactor srcW cols = (srcW : ℚ) / ((max cols 1 : Int) : ℚ) ∧
    1 ≤ max cols 1 ∧
    cropWidth resW cols = cols ∧ cropWidth resW cols ≤ 0 ∧
    embedCanvasW cols = cols := by
  refine ⟨rfl, le_max_right _ _, ?_, ?_, rfl⟩
  · rw [cropWidth]; omega
  · rw [cropWidth]; omega

/-- Closed-form instance of `clamp_only_in_factor`. -/
theorem clamp_only_in_factor_witness :
    xfactor 100 0 = (100 : ℚ) / ((max (0 : Int) 1 : Int) : ℚ) ∧
    1 ≤ max (0 : Int) 1 ∧
    cropWidth 50 0 = 0 ∧ cropWidth 50 0 ≤ 0 ∧
    embedCanvasW 0 = 0 :=
  clamp_only_in_factor 100 0 50 (by decide) (by decide)

/-- The worker baton (`ResizeBaton`, lines 29-42) as read by `ResizeAsync`:
the fields the worker consumes.  `buffer_out_len` starts at 0 (constructor,
line 41) and is part of the result below. -/
structure ResizeBaton where
  src : String
  dst : String
  cols : Int
  rows : Int
  crop : Bool
  embed : Int
deriving DecidableEq

/-- Outcomes of the external vips primitives invoked by `ResizeAsync`.
`imgW`/`imgH` are the decoded image's dimensions, `resW`/`resH` its
dimensions after the two external resample stages (shrink + affine), and
each `...Fails` flag tells whether the corresponding primitive fails,
depositing `vipsErr` in the vips error buffer; `savedLen` is the byte count
produced by a successful save-to-buffer. -/
structure VipsEnv where
  imgW : Int
  imgH : Int
  resW : Int
  resH : Int
  loadFails : Bool
  openLocalFails : Bool
  shrinkFails : Bool
  affineFails : Bool
  extractFails : Bool
  embedFails : Bool
  convFails : Bool
  saveFails : Bool
  vipsErr : String
  savedLen : Nat
deriving DecidableEq

/-- A vips integer convolution mask, as built by `im_create_imaskv`
(row-major coefficients) together with its `scale` divisor. -/
structure INTMASK where
  xsize : Int
  ysize : Int
  coeff : List Int
  scale : Int
deriving DecidableEq

/-- The fixed sharpen mask of lines 122-126: 3×3, eight −1 neighbours
around a centre weight 32, and normalisation divisor (`scale`) 24. -/
def sharpenMask : INTMASK :=
  { xsize := 3, ysize := 3,
    coeff := [-1, -1, -1, -1, 32, -1, -1, -1, -1],
    scale := 24 }

/-- Images as symbolic terms recording the transform stages applied to
them; the pixel semantics of every stage lives in the external vips
library, so only the stage structure is represented. -/
inductive VImage where
  | loaded (src : String)
  | shrunk (base : VImage) (xshrink yshrink : Int)
  | affined (base : VImage) (sx sy : ℚ)
  | extracted (base : VImage) (left top width height : Int)
  | embedded (base : VImage) (flag left top width height : Int)
  | convolved (base : VImage) (mask : INTMASK)
deriving DecidableEq

/-- What `ResizeAsync` leaves behind for the completion callback: the
baton's error string and buffer length, plus (on success) the image term
handed to the final save. -/
structure AsyncResult where
  err : String
  buffer_out_len : Nat
  finalImg : Option VImage
deriving DecidableEq

/-- A failing vips primitive: the error buffer text is appended to the
(empty) baton error and the worker returns. -/
def vipsFail (e : VipsEnv) : AsyncResult :=
  { err := e.vipsErr, buffer_out_len := 0, finalImg := none }

/-- The input dispatch of lines 52-59: the source suffix must be `.jpg`,
`.jpeg` or `.png`. -/
def inputSupported (src : String) : Bool :=
  EndsWith src ".jpg" || EndsWith src ".jpeg" || EndsWith src ".png"

/-- Lines 121-162: the unconditional sharpen convolution followed by the
output dispatch (buffer sentinels `__jpeg`/`__png`, then file suffixes,
else the unsupported-output error). -/
def sharpenAndSave (b : ResizeBaton) (e : VipsEnv) (img : VImage) :
    AsyncResult :=
  if e.convFails then vipsFail e
  else
    let img4 := VImage.convolved img sharpenMask
    if b.dst = "__jpeg" then
      if e.saveFails then vipsFail e
      else { err := "", buffer_out_len := e.savedLen, finalImg := some img4 }
    else if b.dst = "__png" then
      if e.saveFails then vipsFail e
      else { err := "", buffer_out_len := e.savedLen, finalImg := some img4 }
    else if EndsWith b.dst ".jpg" || EndsWith b.dst ".jpeg" then
      if e.saveFails then vipsFail e
      else { err := "", buffer_out_len := 0, finalImg := some img4 }
    else if EndsWith b.dst ".png" then
      if e.saveFails then vipsFail e
      else { err := "", buffer_out_len := 0, finalImg := some img4 }
    else { err := "Unsupported output file type", buffer_out_len := 0,
           finalImg := none }

/-- The worker body `ResizeAsync` (lines 48-163): input dispatch, geometry
planning, two-stage resample, crop or embed, sharpen, output dispatch.
Every failure path returns immediately with the error text and no buffer. -/
def ResizeAsync (b : ResizeBaton) (e : VipsEnv) : AsyncResult :=
  if inputSupported b.src then
    if e.loadFails then vipsFail e
    else if e.openLocalFails then vipsFail e
    else
      let f := factor b.crop (xfactor e.imgW b.cols) (yfactor e.imgH b.rows)
      let s := shrink f
      let r := residual s f
      let img0 := VImage.loaded b.src
      if e.shrinkFails then vipsFail e
      else
        let img1 := VImage.shrunk img0 s s
        if e.affineFails then vipsFail e
        else
          let img2 := VImage.affined img1 r r
          if b.crop then
            let w := cropWidth e.resW b.cols
            let h := cropWidth e.resH b.rows
            if e.extractFails then vipsFail e
            else
              sharpenAndSave b e
                (VImage.extracted img2 (cropLeft e.resW w) (cropLeft e.resH h)
                  w h)
          else
            if e.embedFails then vipsFail e
            else
              sharpenAndSave b e
                (VImage.embedded img2 b.embed (embedLeft b.cols e.resW)
                  (embedLeft b.rows e.resH) (embedCanvasW b.cols)
                  (embedCanvasW b.rows))
  else { err := "Unsupported input file type", buffer_out_len := 0,
         finalImg := none }

/-- The two callback arguments marshalled by `ResizeAsyncAfter`
(lines 165-185): `argv[0]` the error string, `argv[1]` the buffer
(modelled by its byte length).  Both start as null; the error is set
exactly when the baton error is non-empty, otherwise the buffer is set
exactly when `buffer_out_len > 0`, and the callback is called once with
this single pair. -/
structure CallbackArgs where
  error : Option String
  buffer : Option Nat
deriving DecidableEq

/-- `ResizeAsyncAfter`, lines 170-181. -/
def ResizeAsyncAfter (r : AsyncResult) : CallbackArgs :=
  if r.err = "" then
    if 0 < r.buffer_out_len then
      { error := none, buffer := some r.buffer_out_len }
    else { error := none, buffer := none }
  else { error := some r.err, buffer := none }

/-- The baton as initialised by the binding entry point `Resize`
(lines 187-205).  `crop` and `embed` are `Option`-valued here to record
that the C++ fields stay uninitialised when no branch of the canvas
dispatch assigns them. -/
structure JsBaton where
  src : String
  dst : String
  cols : Int
  rows : Int
  crop : Option Bool
  embed : Option Int
deriving DecidableEq

/-- The canvas dispatch of `Resize` (lines 195-204): "c" sets crop, "w"
and "b" set embed-white (4) resp. embed-black (0); any other canvas value
assigns neither field, and the work is queued regardless. -/
def Resize (src dst : String) (cols rows : Int) (canvas : String) :
    JsBaton :=
  let b : JsBaton :=
    { src := src, dst := dst, cols := cols, rows := rows,
      crop := none, embed := none }
  if canvas = "c" then { b with crop := some true }
  else if canvas = "w" then { b with crop := some false, embed := some 4 }
  else if canvas = "b" then { b with crop := some false, embed := some 0 }
  else b

lemma sharpenAndSave_len_pos (b : ResizeBaton) (e : VipsEnv) (img : VImage) :
    0 < (sharpenAndSave b e img).buffer_out_len →
    b.dst = "__jpeg" ∨ b.dst = "__png" := by
  simp only [sharpenAndSave, vipsFail]
  split_ifs <;> simp_all

lemma resizeAsync_len_pos (b : ResizeBaton) (e : VipsEnv) :
    0 < (ResizeAsync b e).buffer_out_len →
    b.dst = "__jpeg" ∨ b.dst = "__png" := by
  simp only [ResizeAsync, vipsFail]
  split_ifs <;>
    first
      | simp
      | exact sharpenAndSave_len_pos b e _

/-- C1: every submitted request is completed exactly once, with mutually
exclusive outcomes: either a non-empty error string and a null buffer, or a
null error together with a buffer that can be present only when the
destination is one of the buffer sentinels (so a file-path destination gets
two nulls on success). -/
theorem completion_outcomes_exclusive (b : ResizeBaton) (e : VipsEnv) :
    (∃ s, (ResizeAsyncAfter (ResizeAsync b e)).error = some s ∧ s ≠ "" ∧
          (ResizeAsyncAfter (ResizeAsync b e)).buffer = none) ∨
    ((ResizeAsyncAfter (ResizeAsync b e)).error = none ∧
     ∀ n, (ResizeAsyncAfter (ResizeAsync b e)).buffer = some n →
        b.dst = "__jpeg" ∨ b.dst = "__png") := by
  by_cases h : (ResizeAsync b e).err = ""
  · right
    constructor
    · simp [ResizeAsyncAfter, h]
      split_ifs <;> rfl
    · intro n hn
      apply resizeAsync_len_pos b e
      by_cases hl : 0 < (ResizeAsync b e).buffer_out_len
      · exact hl
      · simp [ResizeAsyncAfter, h, hl] at hn
  · left
    exact ⟨(ResizeAsync b e).err, by simp [ResizeAsyncAfter, h], h,
      by simp [ResizeAsyncAfter, h]⟩

lemma resizeAsync_input_unsupported (b : ResizeBaton) (e : VipsEnv)
    (h : inputSupported b.src = false) :
    ResizeAsync b e =
      { err := "Unsupported input file type", buffer_out_len := 0,
        finalImg := none } := by
  simp [ResizeAsync, h]

lemma resizeAsync_output_unsupported (b : ResizeBaton) (e : VipsEnv)
    (hin : inputSupported b.src = true)
    (h1 : e.loadFails = false) (h2 : e.openLocalFails = false)
    (h3 : e.shrinkFails = false) (h4 : e.affineFails = false)
    (h5 : e.extractFails = false) (h6 : e.embedFails = false)
    (h7 : e.convFails = false)
    (hs1 : b.dst ≠ "__jpeg") (hs2 : b.dst ≠ "__png")
    (hd1 : EndsWith b.dst ".jpg" = false)
    (hd2 : EndsWith b.dst ".jpeg" = false)
    (hd3 : EndsWith b.dst ".png" = false) :
    ResizeAsync b e =
      { err := "Unsupported output file type", buffer_out_len := 0,
        finalImg := none } := by
  simp only [ResizeAsync, sharpenAndSave, hin, h1, h2, h3, h4, h5, h6, h7,
    hs1, hs2, hd1, hd2, hd3, if_true, if_false, Bool.false_eq_true,
    Bool.or_self, ite_self]

/-- C6: a source path whose suffix is none of `.jpg`, `.jpeg`, `.png`
completes with exactly the error "Unsupported input file type", no buffer
and no pipeline stage executed; and when the input is supported and all
external stages succeed, a destination that is neither a buffer sentinel
nor a path with a supported suffix completes with the error "Unsupported
output file type" and no buffer. -/
theorem unsupported_format_errors (b : ResizeBaton) (e : VipsEnv) :
    (inputSupported b.src = false →
      ResizeAsync b e =
        { err := "Unsupported input file type", buffer_out_len := 0,
          finalImg := none }) ∧
    (inputSupported b.src = true →
     e.loadFails = false → e.openLocalFails = false →
     e.shrinkFails = false → e.affineFails = false →
     e.extractFails = false → e.embedFails = false → e.convFails = false →
     b.dst ≠ "__jpeg" → b.dst ≠ "__png" →
     EndsWith b.dst ".jpg" = false → EndsWith b.dst ".jpeg" = false →
     EndsWith b.dst ".png" = false →
      ResizeAsync b e =
        { err := "Unsupported output file type", buffer_out_len := 0,
          finalImg := none }) := by
  constructor
  · exact resizeAsync_input_unsupported b e
  · intro hin h1 h2 h3 h4 h5 h6 h7 hs1 hs2 hd1 hd2 hd3
    exact resizeAsync_output_unsupported b e hin h1 h2 h3 h4 h5 h6 h7
      hs1 hs2 hd1 hd2 hd3

/-- A fully successful environment used by the closed-form instances. -/
def envOk : VipsEnv :=
  { imgW := 1000, imgH := 1000, resW := 100, resH := 100,
    loadFails := false, openLocalFails := false, shrinkFails := false,
    affineFails := false, extractFails := false, embedFails := false,
    convFails := false, saveFails := false,
    vipsErr := "vips diagnostic", savedLen := 5 }

/-- Closed-form instance of `unsupported_format_errors`: a `.gif` source is
rejected as unsupported input, and a `.bmp` destination as unsupported
output. -/
theorem unsupported_format_errors_witness :
    ResizeAsync
        { src := "a.gif", dst := "__jpeg", cols := 100, rows := 100,
          crop := true, embed := 0 } envOk =
      { err := "Unsupported input file type", buffer_out_len := 0,
        finalImg := none } ∧
    (ResizeAsync
        { src := "a.jpg", dst := "out.bmp", cols := 100, rows := 100,
          crop := true, embed := 0 } envOk).err
      = "Unsupported output file type" :=
  ⟨(unsupported_format_errors _ envOk).1 (by decide),
   by
    rw [(unsupported_format_errors _ envOk).2 (by decide) rfl rfl rfl rfl
      rfl rfl rfl (by decide) (by decide) (by decide) (by decide)
      (by decide)]⟩

lemma sharpenAndSave_success (b : ResizeBaton) (e : VipsEnv) (img : VImage)
    (hverr : e.vipsErr ≠ "") (h : (sharpenAndSave b e img).err = "") :
    (sharpenAndSave b e img).finalImg
      = some (VImage.convolved img sharpenMask) := by
  simp only [sharpenAndSave, vipsFail] at h ⊢
  split_ifs at h ⊢ <;>
    first
      | rfl
      | exact absurd h hverr
      | exact absurd h (by decide)

/-- C7: on every successful resize (empty error), whatever the policy and
scale, the image handed to the encoder is the result of a convolution with
the fixed 3×3 sharpen mask: centre weight 32, eight −1 neighbours,
normalisation divisor 24. -/
theorem sharpen_is_final_stage (b : ResizeBaton) (e : VipsEnv)
    (hverr : e.vipsErr ≠ "") (h : (ResizeAsync b e).err = "") :
    ∃ base, (ResizeAsync b e).finalImg
        = some (VImage.convolved base sharpenMask) ∧
      sharpenMask.xsize = 3 ∧ sharpenMask.ysize = 3 ∧
      sharpenMask.coeff = [-1, -1, -1, -1, 32, -1, -1, -1, -1] ∧
      sharpenMask.scale = 24 := by
  simp only [ResizeAsync, vipsFail] at h ⊢
  split_ifs at h ⊢ <;>
    first
      | exact absurd h hverr
      | exact absurd h (by decide)
      | exact ⟨_, sharpenAndSave_success b e _ hverr h, rfl, rfl, rfl, rfl⟩

/-- Closed-form instance of `sharpen_is_final_stage`. -/
theorem sharpen_is_final_stage_witness :
    ∃ base,
      (ResizeAsync
          { src := "a.jpg", dst := "out.png", cols := 100, rows := 100,
            crop := true, embed := 0 } envOk).finalImg
        = some (VImage.convolved base sharpenMask) ∧
      sharpenMask.xsize = 3 ∧ sharpenMask.ysize = 3 ∧
      sharpenMask.coeff = [-1, -1, -1, -1, 32, -1, -1, -1, -1] ∧
      sharpenMask.scale = 24 :=
  sharpen_is_final_stage
    { src := "a.jpg", dst := "out.png", cols := 100, rows := 100,
      crop := true, embed := 0 } envOk (by decide) (by decide)

/-- C8: when the canvas code is none of "c", "w", "b", the entry point
assigns neither the crop flag nor the embed background — the baton keeps
both unset — and the request is still submitted unchanged, with no
validation error raised. -/
theorem canvas_unknown_leaves_policy_unset (src dst : String)
    (cols rows : Int) (canvas : String)
    (h1 : canvas ≠ "c") (h2 : canvas ≠ "w") (h3 : canvas ≠ "b") :
    (Resize src dst cols rows canvas).crop = none ∧
    (Resize src dst cols rows canvas).embed = none ∧
    Resize src dst cols rows canvas =
      { src := src, dst := dst, cols := cols, rows := rows,
        crop := none, embed := none } := by
  simp [Resize, h1, h2, h3]

/-- Closed-form instance of `canvas_unknown_leaves_policy_unset`. -/
theorem canvas_unknown_leaves_policy_unset_witness :
    (Resize "a.jpg" "out.png" 10 10 "x").crop = none ∧
    (Resize "a.jpg" "out.png" 10 10 "x").embed = none ∧
    Resize "a.jpg" "out.png" 10 10 "x" =
      { src := "a.jpg", dst := "out.png", cols := 10, rows := 10,
        crop := none, embed := none } :=
  canvas_unknown_leaves_policy_unset "a.jpg" "out.png" 10 10 "x"
    (by decide) (by decide) (by decide)

lemma endsWith_iff (s e : String) : EndsWith s e = true ↔ e.data <:+ s.data := by
  rw [EndsWith]
  simp only [Bool.and_eq_true, decide_eq_true_eq]
  constructor
  · rintro ⟨hlen, hdrop⟩
    rw [← hdrop]
    exact List.drop_suffix _ _
  · intro h
    exact ⟨h.length_le, (List.suffix_iff_eq_drop.mp h).symm⟩

lemma endsWith_eq_of_length (s a b : String)
    (ha : EndsWith s a = true) (hb : EndsWith s b = true)
    (hlen : a.data.length = b.data.length) : a.data = b.data := by
  have h1 := List.suffix_iff_eq_drop.mp ((endsWith_iff s a).mp ha)
  have h2 := List.suffix_iff_eq_drop.mp ((endsWith_iff s b).mp hb)
  rw [h1, h2, hlen]

lemma endsWith_sub (s a t : String) (h : EndsWith s a = true)
    (hsub : t.data <:+ a.data) : EndsWith s t = true :=
  (endsWith_iff s t).mpr (hsub.trans ((endsWith_iff s a).mp h))

lemma endsWith_false_of_tail (s a t b : String) (ha : EndsWith s a = true)
    (hsub : t.data <:+ a.data) (hlen : t.data.length = b.data.length)
    (hne : t.data ≠ b.data) : EndsWith s b = false := by
  by_contra hb
  rw [Bool.not_eq_false] at hb
  exact hne (endsWith_eq_of_length s t b (endsWith_sub s a t ha hsub) hb hlen)

lemma endsWith_false_of_tail2 (s a b t : String) (ha : EndsWith s a = true)
    (hsub : t.data <:+ b.data) (hlen : a.data.length = t.data.length)
    (hne : a.data ≠ t.data) : EndsWith s b = false := by
  by_contra hb
  rw [Bool.not_eq_false] at hb
  exact hne (endsWith_eq_of_length s a t ha (endsWith_sub s b t hb hsub) hlen)

lemma ne_of_endsWith (d u v : String) (h : EndsWith d u = true)
    (hv : EndsWith v u = false) : d ≠ v := by
  intro he
  rw [he, hv] at h
  exact Bool.false_ne_true h

lemma upper_src_not_supported (s : String)
    (h : EndsWith s ".JPG" = true ∨ EndsWith s ".Jpeg" = true ∨
      EndsWith s ".PNG" = true) :
    inputSupported s = false := by
  rcases h with h | h | h
  · rw [inputSupported,
      endsWith_false_of_tail2 s ".JPG" ".jpg" ".jpg" h (by decide)
        (by decide) (by decide),
      endsWith_false_of_tail2 s ".JPG" ".jpeg" "jpeg" h (by decide)
        (by decide) (by decide),
      endsWith_false_of_tail2 s ".JPG" ".png" ".png" h (by decide)
        (by decide) (by decide)]
    rfl
  · rw [inputSupported,
      endsWith_false_of_tail s ".Jpeg" "Jpeg" ".jpg" h (by decide)
        (by decide) (by decide),
      endsWith_false_of_tail2 s ".Jpeg" ".jpeg" ".jpeg" h (by decide)
        (by decide) (by decide),
      endsWith_false_of_tail s ".Jpeg" "Jpeg" ".png" h (by decide)
        (by decide) (by decide)]
    rfl
  · rw [inputSupported,
      endsWith_false_of_tail2 s ".PNG" ".jpg" ".jpg" h (by decide)
        (by decide) (by decide),
      endsWith_false_of_tail2 s ".PNG" ".jpeg" "jpeg" h (by decide)
        (by decide) (by decide),
      endsWith_false_of_tail2 s ".PNG" ".png" ".png" h (by decide)
        (by decide) (by decide)]
    rfl

lemma upper_dst_facts (d : String)
    (h : EndsWith d ".JPG" = true ∨ EndsWith d ".Jpeg" = true ∨
      EndsWith d ".PNG" = true) :
    d ≠ "__jpeg" ∧ d ≠ "__png" ∧ EndsWith d ".jpg" = false ∧
      EndsWith d ".jpeg" = false ∧ EndsWith d ".png" = false := by
  rcases h with h | h | h
  · exact ⟨ne_of_endsWith d ".JPG" "__jpeg" h (by decide),
      ne_of_endsWith d ".JPG" "__png" h (by decide),
      endsWith_false_of_tail2 d ".JPG" ".jpg" ".jpg" h (by decide)
        (by decide) (by decide),
      endsWith_false_of_tail2 d ".JPG" ".jpeg" "jpeg" h (by decide)
        (by decide) (by decide),
      endsWith_false_of_tail2 d ".JPG" ".png" ".png" h (by decide)
        (by decide) (by decide)⟩
  · exact ⟨ne_of_endsWith d ".Jpeg" "__jpeg" h (by decide),
      ne_of_endsWith d ".Jpeg" "__png" h (by decide),
      endsWith_false_of_tail d ".Jpeg" "Jpeg" ".jpg" h (by decide)
        (by decide) (by decide),
      endsWith_false_of_tail2 d ".Jpeg" ".jpeg" ".jpeg" h (by decide)
        (by decide) (by decide),
      endsWith_false_of_tail d ".Jpeg" "Jpeg" ".png" h (by decide)
        (by decide) (by decide)⟩
  · exact ⟨ne_of_endsWith d ".PNG" "__jpeg" h (by decide),
      ne_of_endsWith d ".PNG" "__png" h (by decide),
      endsWith_false_of_tail2 d ".PNG" ".jpg" ".jpg" h (by decide)
        (by decide) (by decide),
      endsWith_false_of_tail2 d ".PNG" ".jpeg" "jpeg" h (by decide)
        (by decide) (by decide),
      endsWith_false_of_tail2 d ".PNG" ".png" ".png" h (by decide)
        (by decide) (by decide)⟩

/-- C9: suffix matching is case-sensitive exact byte comparison: a source
ending in ".JPG", ".Jpeg" or ".PNG" is rejected as unsupported input, an
upper-case destination suffix is rejected as unsupported output (given a
supported source and successful external stages), while the lower-case
spellings are accepted. -/
theorem suffix_match_case_sensitive (b : ResizeBaton) (e : VipsEnv) :
    ((EndsWith b.src ".JPG" = true ∨ EndsWith b.src ".Jpeg" = true ∨
        EndsWith b.src ".PNG" = true) →
      ResizeAsync b e =
        { err := "Unsupported input file type", buffer_out_len := 0,
          finalImg := none }) ∧
    ((EndsWith b.dst ".JPG" = true ∨ EndsWith b.dst ".Jpeg" = true ∨
        EndsWith b.dst ".PNG" = true) →
      inputSupported b.src = true →
      e.loadFails = false → e.openLocalFails = false →
      e.shrinkFails = false → e.affineFails = false →
      e.extractFails = false → e.embedFails = false → e.convFails = false →
      (ResizeAsync b e).err = "Unsupported output file type") ∧
    (inputSupported "a.jpg" = true ∧ inputSupported "a.jpeg" = true ∧
      inputSupported "a.png" = true ∧
      EndsWith "out.jpg" ".jpg" = true ∧
      EndsWith "out.jpeg" ".jpeg" = true ∧
      EndsWith "out.png" ".png" = true) := by
  refine ⟨?_, ?_, by decide⟩
  · intro h
    exact resizeAsync_input_unsupported b e (upper_src_not_supported b.src h)
  · intro h hin h1 h2 h3 h4 h5 h6 h7
    obtain ⟨hs1, hs2, hd1, hd2, hd3⟩ := upper_dst_facts b.dst h
    rw [resizeAsync_output_unsupported b e hin h1 h2 h3 h4 h5 h6 h7
      hs1 hs2 hd1 hd2 hd3]

/-- Closed-form instance of `suffix_match_case_sensitive`. -/
theorem suffix_match_case_sensitive_witness :
    ResizeAsync
        { src := "a.JPG", dst := "__jpeg", cols := 100, rows := 100,
          crop := true, embed := 0 } envOk =
      { err := "Unsupported input file type", buffer_out_len := 0,
        finalImg := none } ∧
    (ResizeAsync
        { src := "a.jpg", dst := "out.PNG", cols := 100, rows := 100,
          crop := true, embed := 0 } envOk).err
      = "Unsupported output file type" :=
  ⟨(suffix_match_case_sensitive
      { src := "a.JPG", dst := "__jpeg", cols := 100, rows := 100,
        crop := true, embed := 0 } envOk).1 (Or.inl (by decide)),
   (suffix_match_case_sensitive
      { src := "a.jpg", dst := "out.PNG", cols := 100, rows := 100,
        crop := true, embed := 0 } envOk).2.1 (Or.inr (Or.inr (by decide)))
     (by decide) rfl rfl rfl rfl rfl rfl rfl⟩

end Sharp
